import Mathlib

/-!
Shallow embedding of the infinidb virtual-table module (src/main.go).

The module exposes SQLite virtual tables whose schema and rows are produced
by an external generator and cached: `Connect` resolves a table's columns
through the process-lifetime `schemaCache`, and `Open` materializes the rows
through a per-table JSON cache file, falling back to a generator call.

Modelling conventions:
- Go `map[string]...` values are association lists looked up by string key.
- Go `float64` JSON numbers are modelled as exact rationals; the conversion
  `int64(v)` truncates toward zero, as in Go, via `Int.div`.
- The generator exchange (OpenAI chat call plus JSON unmarshal) is an oracle
  value in an environment record: it either fails at the network layer, fails
  to parse, or yields structured data, exactly the three outcomes the code
  distinguishes.
- Errors are an inductive mirroring the distinct `fmt.Errorf` messages.
- `DeclareVTab` and the prompt-template files are engine/filesystem
  boundaries; prompt rendering is a boolean oracle, `DeclareVTab` is outside
  the modelled slice (it is called after the cache is already populated).
-/

/-- Dynamically typed scalar held in a row, as produced by Go's
`json.Unmarshal` into `map[string]interface{}` (numbers become `float64`,
modelled as rationals) plus the `int64` and `[]byte` cases the code also
inspects. -/
inductive GoValue where
  | vnum (q : ℚ)
  | vint (n : ℤ)
  | vstr (s : String)
  | vbytes (b : List UInt8)
  | vbool (b : Bool)
  | vnull
  deriving DecidableEq, Repr

/-- `Column` from src/main.go lines 21-26. -/
structure Column where
  name : String
  type : String
  constraints : String
  description : String
  deriving DecidableEq, Repr

/-- A row: Go `map[string]interface{}`, as an association list. -/
def Row := List (String × GoValue)
  deriving DecidableEq, Repr

/-- Association-list lookup mirroring Go map access `m[k]`. -/
def assocFind {α : Type} (k : String) : List (String × α) → Option α
  | [] => none
  | (k2, v) :: rest => if k2 = k then some v else assocFind k rest

/-- Map update `m[k] = v` (lookup finds the newest binding). -/
def assocInsert {α : Type} (k : String) (v : α) (m : List (String × α)) :
    List (String × α) :=
  (k, v) :: m

/-- The `validTypes` set of Connect, src/main.go line 115. -/
def validTypes : List String := ["INTEGER", "TEXT", "REAL", "BLOB"]

/-- The distinct failure modes of `Connect`, one per `fmt.Errorf` call on the
schema path (src/main.go lines 60, 73, 86, 100, 105, 110, 118, 122). -/
inductive SchemaError where
  | missingArgs
  | missingCredentials
  | promptError
  | generatorError
  | parseError
  | emptySchema
  | duplicateColumn (name : String)
  | invalidType (ty : String) (name : String)
  deriving DecidableEq, Repr

/-- The column-validation loop of Connect, src/main.go lines 114-124:
walk the columns in order with the `seenNames` set; an empty or repeated
name fails first, then an invalid type. `none` means the loop passed. -/
def validateColumnsAux : List Column → List String → Option SchemaError
  | [], _ => none
  | c :: rest, seen =>
    if c.name = "" ∨ c.name ∈ seen then some (.duplicateColumn c.name)
    else if c.type ∉ validTypes then some (.invalidType c.type c.name)
    else validateColumnsAux rest (c.name :: seen)

def validateColumns (cols : List Column) : Option SchemaError :=
  validateColumnsAux cols []

/-- Outcome of one generator exchange for schema generation: the chat call
errors (line 99), the content fails to unmarshal (line 104), or it parses
into a column list (line 107). -/
inductive GenOutcome where
  | genFail
  | parseFail
  | ok (cols : List Column)
  deriving DecidableEq, Repr

/-- Environment of one `Connect` call: `os.Getenv("OPENAI_API_KEY")`, the
prompt-template rendering outcome, and the generator oracle. -/
structure GenEnv where
  apiKey : String
  promptOk : Bool
  gen : GenOutcome
  deriving DecidableEq, Repr

deriving instance DecidableEq for Except

/-- The process-lifetime `schemaCache` map, src/main.go line 32. -/
def SchemaCache := List (String × List Column)
  deriving DecidableEq, Repr

/-- Result of a `Connect` call: the returned columns or error, the schema
cache after the call, and how many generator invocations were made. -/
structure ConnectOut where
  res : Except SchemaError (List Column)
  cache : SchemaCache
  gen : ℕ
  deriving DecidableEq, Repr

/-- `InfiniDBModule.Connect`, src/main.go lines 57-145, up to the point the
table handle is built (DeclareVTab is the engine boundary). `args` are the
module arguments; `args[2]` is the table name, `args[3]` the description. -/
def argAt (args : List String) (i : ℕ) : String :=
  args.getD i ""

def Connect (env : GenEnv) (cache : SchemaCache) (args : List String) :
    ConnectOut :=
  if args.length < 4 then ⟨.error .missingArgs, cache, 0⟩
  else
    let tableName := argAt args 2
    match assocFind tableName cache with
    | some cols => ⟨.ok cols, cache, 0⟩
    | none =>
      if env.apiKey = "" then ⟨.error .missingCredentials, cache, 0⟩
      else if !env.promptOk then ⟨.error .promptError, cache, 0⟩
      else
        match env.gen with
        | .genFail => ⟨.error .generatorError, cache, 1⟩
        | .parseFail => ⟨.error .parseError, cache, 1⟩
        | .ok cols =>
          if cols.length = 0 then ⟨.error .emptySchema, cache, 1⟩
          else
            match validateColumns cols with
            | some e => ⟨.error e, cache, 1⟩
            | none => ⟨.ok cols, assocInsert tableName cols cache, 1⟩

/-- `InfiniTable`, src/main.go lines 149-153. -/
structure InfiniTable where
  tableName : String
  tableDesc : String
  columns : List Column
  deriving DecidableEq, Repr

/-- `InfiniCursor`, src/main.go lines 234-239. `pos` is a Go `int`. -/
structure InfiniCursor where
  tableName : String
  data : List Row
  pos : ℤ
  columns : List Column
  deriving DecidableEq, Repr

/-- What a read of the per-table cache file can yield: the file exists and
unmarshals into a row array, or it exists but `json.Unmarshal` fails
(src/main.go lines 171-177; a missing file is no entry at all). -/
inductive FileData where
  | malformed
  | rows (rs : List Row)
  deriving DecidableEq, Repr

/-- The data-cache directory: cache-file path to content. -/
def FS := List (String × FileData)
  deriving DecidableEq, Repr

/-- Cache-file identity, src/main.go lines 165-170:
`filepath.Join(".cache", fmt.Sprintf("%s_data.json", tableName))`. -/
def cacheFileName (tableName : String) : String :=
  ".cache/" ++ tableName ++ "_data.json"

/-- The distinct failure modes of `Open`, one per `fmt.Errorf` on the data
path (src/main.go lines 181, 195, 209, 218, 222). -/
inductive DataError where
  | missingCredentials
  | promptError
  | generatorError
  | parseError
  | emptyData
  deriving DecidableEq, Repr

/-- Outcome of one generator exchange for data generation: chat error
(line 208), unmarshal failure (line 217), or a parsed row list (line 216). -/
inductive DataGenOutcome where
  | genFail
  | parseFail
  | ok (rows : List Row)
  deriving DecidableEq, Repr

/-- Environment of one `Open` call: the API key, prompt rendering, the data
generator oracle, and whether `os.WriteFile` on the cache file succeeds
(the write is best-effort, src/main.go lines 225-229). -/
structure DataEnv where
  apiKey : String
  promptOk : Bool
  gen : DataGenOutcome
  writeOk : Bool
  deriving DecidableEq, Repr

/-- Result of an `Open` call: the cursor or error, the data-cache state
after the call, and the number of generator invocations made. -/
structure OpenOut where
  res : Except DataError InfiniCursor
  fs : FS
  gen : ℕ
  deriving DecidableEq, Repr

/-- `InfiniTable.Open`, src/main.go lines 164-232. A readable, well-formed
cache file short-circuits to a cursor; otherwise the generator is invoked,
the response validated, and the rows persisted best-effort. -/
def InfiniTable.Open (env : DataEnv) (fs : FS) (vt : InfiniTable) : OpenOut :=
  let file := cacheFileName vt.tableName
  match assocFind file fs with
  | some (.rows rs) =>
    ⟨.ok ⟨vt.tableName, rs, 0, vt.columns⟩, fs, 0⟩
  | _ =>
    if env.apiKey = "" then ⟨.error .missingCredentials, fs, 0⟩
    else if !env.promptOk then ⟨.error .promptError, fs, 0⟩
    else
      match env.gen with
      | .genFail => ⟨.error .generatorError, fs, 1⟩
      | .parseFail => ⟨.error .parseError, fs, 1⟩
      | .ok rows =>
        if rows.length = 0 then ⟨.error .emptyData, fs, 1⟩
        else
          let fs2 := if env.writeOk then assocInsert file (.rows rows) fs else fs
          ⟨.ok ⟨vt.tableName, rows, 0, vt.columns⟩, fs2, 1⟩

/-- `InfiniCursor.Filter`, src/main.go lines 242-245: reset position. -/
def InfiniCursor.Filter (cur : InfiniCursor) : InfiniCursor :=
  { cur with pos := 0 }

/-- `InfiniCursor.Next`, src/main.go lines 246-249. -/
def InfiniCursor.Next (cur : InfiniCursor) : InfiniCursor :=
  { cur with pos := cur.pos + 1 }

/-- `InfiniCursor.EOF`, src/main.go lines 251-253. -/
def InfiniCursor.EOF (cur : InfiniCursor) : Bool :=
  cur.pos ≥ cur.data.length

/-- `InfiniCursor.Rowid`, src/main.go lines 255-257. -/
def InfiniCursor.Rowid (cur : InfiniCursor) : ℤ :=
  cur.pos

/-- The distinct failure modes of `Column`, src/main.go lines 259-306. -/
inductive CursorError where
  | cursorOutOfRange
  | typeMismatch (colName : String) (expected : String)
  | unsupportedType (ty : String)
  deriving DecidableEq, Repr

/-- What `Column` hands to the SQLiteContext: exactly one of the
`c.Result*` calls in src/main.go lines 268-300. -/
inductive ColResult where
  | null
  | int (n : ℤ)
  | double (q : ℚ)
  | text (s : String)
  | blob (b : List UInt8)
  deriving DecidableEq, Repr

/-- Go's `int64(v)` on a `float64`: truncation toward zero. -/
def goTrunc (q : ℚ) : ℤ :=
  Int.tdiv q.num q.den

/-- Go's `[]byte(v)` on a string: its UTF-8 bytes. -/
def strBytes (s : String) : List UInt8 :=
  s.toUTF8.toList

/-- The zero value a Go slice index would never produce; only used as the
(unreachable) default for in-bounds list reads. -/
def defaultColumn : Column := ⟨"", "", "", ""⟩

/-- `cur.data[cur.pos]`, src/main.go line 264 (the bounds guard of line 260
makes the default unreachable). -/
def InfiniCursor.curRow (cur : InfiniCursor) : Row :=
  cur.data.getD cur.pos.toNat []

/-- `cur.columns[col]`, src/main.go lines 265 and 272 (the bounds guard of
line 260 makes the default unreachable). -/
def InfiniCursor.curCol (cur : InfiniCursor) (col : ℤ) : Column :=
  cur.columns.getD col.toNat defaultColumn

/-- `InfiniCursor.Column`, src/main.go lines 259-306: bounds check, row
lookup (absent key signals null), then coercion by the declared type. The
method mutates no cursor field, so it is a pure function of the cursor. -/
def InfiniCursor.Column (cur : InfiniCursor) (col : ℤ) :
    Except CursorError ColResult :=
  if cur.pos < 0 ∨ cur.pos ≥ cur.data.length ∨ col < 0 ∨ col ≥ cur.columns.length
  then .error .cursorOutOfRange
  else
    let row := cur.curRow
    let c := cur.curCol col
    match assocFind c.name row with
    | none => .ok .null
    | some value =>
      match c.type with
      | "INTEGER" =>
        match value with
        | .vnum q => .ok (.int (goTrunc q))
        | .vint n => .ok (.int n)
        | _ => .error (.typeMismatch c.name "integer")
      | "TEXT" =>
        match value with
        | .vstr s => .ok (.text s)
        | _ => .error (.typeMismatch c.name "text")
      | "REAL" =>
        match value with
        | .vnum q => .ok (.double q)
        | _ => .error (.typeMismatch c.name "real")
      | "BLOB" =>
        match value with
        | .vstr s => .ok (.blob (strBytes s))
        | .vbytes b => .ok (.blob b)
        | _ => .error (.typeMismatch c.name "blob")
      | ty => .error (.unsupportedType ty)

/-!
Interleaving model of concurrent `Connect` calls. `schemaCache`
(src/main.go line 32) is a plain map with no mutex, so two goroutines
inside `Connect` interleave at the statements that touch shared state:
the cache read at line 68, the generator exchange at lines 89-124, and
the cache store at line 126. Each of those is one atomic step here; the
generator invocation count is shared so that coalescing can be observed.
-/

/-- Control point of one caller inside `Connect`'s body. -/
inductive CPc where
  | atLookup
  | atGen
  | atStore
  | done
  deriving DecidableEq, Repr

/-- One caller: its control point, the validated columns it is about to
store, and its final result once done. -/
structure CThread where
  pc : CPc
  pending : List Column
  res : Option (Except SchemaError (List Column))
  deriving DecidableEq, Repr

/-- Shared state plus the two callers. -/
structure CState where
  cache : SchemaCache
  genCount : ℕ
  t0 : CThread
  t1 : CThread
  deriving DecidableEq, Repr

/-- A caller not yet started, at the cache lookup of src/main.go line 68. -/
def initThread : CThread := ⟨.atLookup, [], none⟩

/-- One atomic step of a single caller, following `Connect`'s body. -/
def threadStep (env : GenEnv) (name : String) (cache : SchemaCache)
    (genCount : ℕ) (t : CThread) : SchemaCache × ℕ × CThread :=
  match t.pc with
  | .atLookup =>
    match assocFind name cache with
    | some cols =>
      (cache, genCount, { t with pc := .done, res := some (.ok cols) })
    | none =>
      if env.apiKey = "" then
        (cache, genCount,
          { t with pc := .done, res := some (.error .missingCredentials) })
      else if !env.promptOk then
        (cache, genCount,
          { t with pc := .done, res := some (.error .promptError) })
      else (cache, genCount, { t with pc := .atGen })
  | .atGen =>
    match env.gen with
    | .genFail =>
      (cache, genCount + 1,
        { t with pc := .done, res := some (.error .generatorError) })
    | .parseFail =>
      (cache, genCount + 1,
        { t with pc := .done, res := some (.error .parseError) })
    | .ok cols =>
      if cols.length = 0 then
        (cache, genCount + 1,
          { t with pc := .done, res := some (.error .emptySchema) })
      else
        match validateColumns cols with
        | some e =>
          (cache, genCount + 1, { t with pc := .done, res := some (.error e) })
        | none => (cache, genCount + 1, { t with pc := .atStore, pending := cols })
  | .atStore =>
    (assocInsert name t.pending cache, genCount,
      { t with pc := .done, res := some (.ok t.pending) })
  | .done => (cache, genCount, t)

/-- Let the chosen caller (`false` = first, `true` = second) take a step. -/
def schedStep (env : GenEnv) (name : String) (s : CState) (who : Bool) :
    CState :=
  if who then
    let out := threadStep env name s.cache s.genCount s.t1
    { s with cache := out.1, genCount := out.2.1, t1 := out.2.2 }
  else
    let out := threadStep env name s.cache s.genCount s.t0
    { s with cache := out.1, genCount := out.2.1, t0 := out.2.2 }

/-- Run a schedule (a list of caller choices). -/
def runSched (env : GenEnv) (name : String) : CState → List Bool → CState
  | s, [] => s
  | s, w :: ws => runSched env name (schedStep env name s w) ws

/-- Both callers racing from an empty cache. -/
def raceInit : CState := ⟨[], 0, initThread, initThread⟩

example :
    (Connect ⟨"k", true, .ok [⟨"id", "INTEGER", "", ""⟩]⟩ [] ["m", "d", "t", "x"]).res
      = .ok [⟨"id", "INTEGER", "", ""⟩] := by decide

example :
    (runSched ⟨"k", true, .ok [⟨"id", "INTEGER", "", ""⟩]⟩ "t" raceInit
      [false, true, false, true, false, true]).genCount = 2 := by decide

/-!
Spec-side characterization of a well-formed generator schema (written from
the spec's words in section 4.1, for comparison with the validation loop):
at least one column, names non-empty and pairwise distinct, types in the
four-member enum.
-/

/-- Spec wording: every column name is non-empty and unique in the table. -/
def NamesOk (cols : List Column) : Prop :=
  (∀ c ∈ cols, c.name ≠ "") ∧ (cols.map Column.name).Nodup

/-- Spec wording: every column type is in the four-member enum. -/
def TypesOk (cols : List Column) : Prop :=
  ∀ c ∈ cols, c.type ∈ validTypes

/-- Spec wording: a valid generator schema response. -/
def SchemaSpecOk (cols : List Column) : Prop :=
  cols ≠ [] ∧ NamesOk cols ∧ TypesOk cols

instance : DecidablePred NamesOk := fun cols => by
  unfold NamesOk; infer_instance

instance : DecidablePred TypesOk := fun cols => by
  unfold TypesOk; infer_instance

instance : DecidablePred SchemaSpecOk := fun cols => by
  unfold SchemaSpecOk; infer_instance

lemma assocFind_insert {α : Type} (k : String) (v : α) (m : List (String × α)) :
    assocFind k (assocInsert k v m) = some v := by
  simp [assocFind, assocInsert]

/-- The validation loop passes iff every column has a non-empty, fresh,
unrepeated name and a valid type. -/
lemma validateColumnsAux_eq_none_iff (cols : List Column) (seen : List String) :
    validateColumnsAux cols seen = none ↔
      ((∀ c ∈ cols, c.name ≠ "" ∧ c.name ∉ seen ∧ c.type ∈ validTypes) ∧
        (cols.map Column.name).Nodup) := by
  induction cols generalizing seen with
  | nil => simp [validateColumnsAux]
  | cons c rest ih =>
    unfold validateColumnsAux
    by_cases h1 : c.name = "" ∨ c.name ∈ seen
    · simp only [if_pos h1]
      constructor
      · intro h; cases h
      · rintro ⟨hall, -⟩
        rcases hall c (by simp) with ⟨hne, hnot, -⟩
        rcases h1 with h | h
        · exact absurd h hne
        · exact absurd h hnot
    · simp only [if_neg h1]
      push_neg at h1
      by_cases h2 : c.type ∉ validTypes
      · simp only [if_pos h2]
        constructor
        · intro h; cases h
        · rintro ⟨hall, -⟩
          rcases hall c (by simp) with ⟨-, -, hty⟩
          exact absurd hty h2
      · simp only [if_neg h2]
        push_neg at h2
        rw [ih]
        constructor
        · rintro ⟨hall, hnd⟩
          refine ⟨?_, ?_⟩
          · intro c2 hc2
            rcases List.mem_cons.mp hc2 with rfl | hc2
            · exact ⟨h1.1, h1.2, h2⟩
            · rcases hall c2 hc2 with ⟨hne, hnot, hty⟩
              exact ⟨hne, fun hmem => hnot (List.mem_cons_of_mem _ hmem), hty⟩
          · rw [List.map_cons, List.nodup_cons]
            refine ⟨?_, hnd⟩
            intro hmem
            rcases List.mem_map.mp hmem with ⟨c2, hc2, hname⟩
            rcases hall c2 hc2 with ⟨-, hnot, -⟩
            exact hnot (by rw [hname]; exact List.mem_cons_self _ _)
        · rintro ⟨hall, hnd⟩
          rw [List.map_cons, List.nodup_cons] at hnd
          refine ⟨?_, hnd.2⟩
          intro c2 hc2
          rcases hall c2 (List.mem_cons_of_mem _ hc2) with ⟨hne, hnot, hty⟩
          refine ⟨hne, ?_, hty⟩
          intro hmem
          rcases List.mem_cons.mp hmem with heq | hmem2
          · exact hnd.1 (heq ▸ List.mem_map.mpr ⟨c2, hc2, rfl⟩)
          · exact hnot hmem2

/-- A `duplicateColumn` verdict is sound evidence: some name is empty, some
name repeats, or some name was already in the seen set. -/
lemma validateColumnsAux_dup_sound (cols : List Column) (seen : List String)
    (n : String)
    (h : validateColumnsAux cols seen = some (.duplicateColumn n)) :
    (∃ c ∈ cols, c.name = "") ∨ ¬ (cols.map Column.name).Nodup ∨
      ∃ c ∈ cols, c.name ∈ seen := by
  induction cols generalizing seen with
  | nil => cases h
  | cons c rest ih =>
    unfold validateColumnsAux at h
    by_cases h1 : c.name = "" ∨ c.name ∈ seen
    · rcases h1 with h1 | h1
      · exact Or.inl ⟨c, by simp, h1⟩
      · exact Or.inr (Or.inr ⟨c, by simp, h1⟩)
    · rw [if_neg h1] at h
      by_cases h2 : c.type ∉ validTypes
      · rw [if_pos h2] at h
        cases h
      · rw [if_neg h2] at h
        rcases ih (c.name :: seen) h with hcase | hcase | hcase
        · rcases hcase with ⟨c2, hc2, hname⟩
          exact Or.inl ⟨c2, List.mem_cons_of_mem _ hc2, hname⟩
        · refine Or.inr (Or.inl ?_)
          rw [List.map_cons, List.nodup_cons]
          rintro ⟨-, hnd⟩
          exact hcase hnd
        · rcases hcase with ⟨c2, hc2, hmem⟩
          rcases List.mem_cons.mp hmem with heq | hmem2
          · refine Or.inr (Or.inl ?_)
            rw [List.map_cons, List.nodup_cons]
            rintro ⟨hnotmem, -⟩
            exact hnotmem (heq ▸ List.mem_map.mpr ⟨c2, hc2, rfl⟩)
          · exact Or.inr (Or.inr ⟨c2, List.mem_cons_of_mem _ hc2, hmem2⟩)

/-- An `invalidType` verdict is sound evidence: the named column carries
exactly that type, and it is outside the enum. -/
lemma validateColumnsAux_ty_sound (cols : List Column) (seen : List String)
    (t n : String)
    (h : validateColumnsAux cols seen = some (.invalidType t n)) :
    ∃ c ∈ cols, c.name = n ∧ c.type = t ∧ t ∉ validTypes := by
  induction cols generalizing seen with
  | nil => cases h
  | cons c rest ih =>
    unfold validateColumnsAux at h
    by_cases h1 : c.name = "" ∨ c.name ∈ seen
    · rw [if_pos h1] at h
      cases h
    · rw [if_neg h1] at h
      by_cases h2 : c.type ∉ validTypes
      · rw [if_pos h2] at h
        injection h with h
        injection h with ht hn
        exact ⟨c, by simp, hn, ht, ht ▸ h2⟩
      · rw [if_neg h2] at h
        rcases ih (c.name :: seen) h with ⟨c2, hc2, hprops⟩
        exact ⟨c2, List.mem_cons_of_mem _ hc2, hprops⟩

/-- The validation loop only ever reports a duplicate-name or an
invalid-type defect. -/
lemma validateColumnsAux_err_shape (cols : List Column) (seen : List String)
    (e : SchemaError) (h : validateColumnsAux cols seen = some e) :
    (∃ n, e = .duplicateColumn n) ∨ ∃ t n, e = .invalidType t n := by
  induction cols generalizing seen with
  | nil => cases h
  | cons c rest ih =>
    unfold validateColumnsAux at h
    by_cases h1 : c.name = "" ∨ c.name ∈ seen
    · rw [if_pos h1] at h
      injection h with h
      exact Or.inl ⟨c.name, h.symm⟩
    · rw [if_neg h1] at h
      by_cases h2 : c.type ∉ validTypes
      · rw [if_pos h2] at h
        injection h with h
        exact Or.inr ⟨c.type, c.name, h.symm⟩
      · rw [if_neg h2] at h
        exact ih (c.name :: seen) h

/-- A schema-cache hit returns the cached columns at once: no generator
invocation, no cache change (src/main.go lines 68-69). -/
lemma connect_cache_hit (env : GenEnv) (cache : SchemaCache)
    (args : List String) (cols : List Column) (hlen : ¬ args.length < 4)
    (hhit : assocFind (argAt args 2) cache = some cols) :
    Connect env cache args = ⟨.ok cols, cache, 0⟩ := by
  simp [Connect, hlen, hhit]

/-- On a cache miss with credentials, prompt, and a parsed generator
response, `Connect` reduces to the validation step. -/
lemma connect_gen_ok (env : GenEnv) (cache : SchemaCache) (args : List String)
    (cols : List Column) (hlen : ¬ args.length < 4)
    (hmiss : assocFind (argAt args 2) cache = none)
    (hkey : ¬ env.apiKey = "") (hprompt : env.promptOk = true)
    (hgen : env.gen = .ok cols) :
    Connect env cache args =
      (if cols.length = 0 then ⟨.error .emptySchema, cache, 1⟩
       else
         match validateColumns cols with
         | some e => ⟨.error e, cache, 1⟩
         | none => ⟨.ok cols, assocInsert (argAt args 2) cols cache, 1⟩) := by
  simp [Connect, hlen, hmiss, hkey, hprompt, hgen]

/-- Every failing `Connect` leaves the schema cache untouched, and every
`Connect` makes at most one generator invocation. -/
lemma connect_err_cache (env : GenEnv) (cache : SchemaCache)
    (args : List String) (e : SchemaError)
    (h : (Connect env cache args).res = .error e) :
    (Connect env cache args).cache = cache := by
  by_cases hlen : args.length < 4
  · simp [Connect, hlen]
  · cases hfind : assocFind (argAt args 2) cache with
    | some c =>
      rw [connect_cache_hit env cache args c hlen hfind] at h
      simp at h
    | none =>
      by_cases hkey : env.apiKey = ""
      · simp [Connect, hlen, hfind, hkey]
      · cases hprompt : env.promptOk with
        | false => simp [Connect, hlen, hfind, hkey, hprompt]
        | true =>
          cases hgen : env.gen with
          | genFail => simp [Connect, hlen, hfind, hkey, hprompt, hgen]
          | parseFail => simp [Connect, hlen, hfind, hkey, hprompt, hgen]
          | ok cols =>
            rw [connect_gen_ok env cache args cols hlen hfind hkey hprompt hgen]
              at h ⊢
            by_cases hz : cols.length = 0
            · simp [hz]
            · cases hval : validateColumns cols with
              | some e2 => simp [hz, hval]
              | none => simp [hz, hval] at h

/-- `Connect` never makes more than one generator invocation. -/
lemma connect_gen_le_one (env : GenEnv) (cache : SchemaCache)
    (args : List String) : (Connect env cache args).gen ≤ 1 := by
  by_cases hlen : args.length < 4
  · simp [Connect, hlen]
  · cases hfind : assocFind (argAt args 2) cache with
    | some c => simp [connect_cache_hit env cache args c hlen hfind]
    | none =>
      by_cases hkey : env.apiKey = ""
      · simp [Connect, hlen, hfind, hkey]
      · cases hprompt : env.promptOk with
        | false => simp [Connect, hlen, hfind, hkey, hprompt]
        | true =>
          cases hgen : env.gen with
          | genFail => simp [Connect, hlen, hfind, hkey, hprompt, hgen]
          | parseFail => simp [Connect, hlen, hfind, hkey, hprompt, hgen]
          | ok cols =>
            rw [connect_gen_ok env cache args cols hlen hfind hkey hprompt hgen]
            by_cases hz : cols.length = 0
            · simp [hz]
            · cases hval : validateColumns cols with
              | some e2 => simp [hz, hval]
              | none => simp [hz, hval]

/-- A successful `Connect` either left the cache unchanged (a hit) or
stored exactly the full validated column list under the table name. -/
lemma connect_ok_cache (env : GenEnv) (cache : SchemaCache)
    (args : List String) (cols : List Column)
    (h : (Connect env cache args).res = .ok cols) :
    (Connect env cache args).cache = cache ∨
      ((Connect env cache args).cache
          = assocInsert (argAt args 2) cols cache ∧
        validateColumns cols = none ∧ cols ≠ []) := by
  by_cases hlen : args.length < 4
  · simp [Connect, hlen] at h
  · cases hfind : assocFind (argAt args 2) cache with
    | some c =>
      rw [connect_cache_hit env cache args c hlen hfind]
      exact Or.inl rfl
    | none =>
      by_cases hkey : env.apiKey = ""
      · simp [Connect, hlen, hfind, hkey] at h
      · cases hprompt : env.promptOk with
        | false => simp [Connect, hlen, hfind, hkey, hprompt] at h
        | true =>
          cases hgen : env.gen with
          | genFail => simp [Connect, hlen, hfind, hkey, hprompt, hgen] at h
          | parseFail => simp [Connect, hlen, hfind, hkey, hprompt, hgen] at h
          | ok cols0 =>
            rw [connect_gen_ok env cache args cols0 hlen hfind hkey hprompt hgen]
              at h ⊢
            by_cases hz : cols0.length = 0
            · simp [hz] at h
            · cases hval : validateColumns cols0 with
              | some e2 => simp [hz, hval] at h
              | none =>
                simp [hz, hval] at h ⊢
                subst h
                exact Or.inr ⟨rfl, hval, by simpa using hz⟩

/-- A successful `Connect` leaves the returned columns in the cache. -/
lemma connect_ok_find (env : GenEnv) (cache : SchemaCache)
    (args : List String) (cols : List Column)
    (h : (Connect env cache args).res = .ok cols) :
    assocFind (argAt args 2) (Connect env cache args).cache = some cols := by
  by_cases hlen : args.length < 4
  · simp [Connect, hlen] at h
  · cases hfind : assocFind (argAt args 2) cache with
    | some c =>
      rw [connect_cache_hit env cache args c hlen hfind] at h ⊢
      simp at h
      subst h
      exact hfind
    | none =>
      by_cases hkey : env.apiKey = ""
      · simp [Connect, hlen, hfind, hkey] at h
      · cases hprompt : env.promptOk with
        | false => simp [Connect, hlen, hfind, hkey, hprompt] at h
        | true =>
          cases hgen : env.gen with
          | genFail => simp [Connect, hlen, hfind, hkey, hprompt, hgen] at h
          | parseFail => simp [Connect, hlen, hfind, hkey, hprompt, hgen] at h
          | ok cols0 =>
            rw [connect_gen_ok env cache args cols0 hlen hfind hkey hprompt hgen]
              at h ⊢
            by_cases hz : cols0.length = 0
            · simp [hz] at h
            · cases hval : validateColumns cols0 with
              | some e2 => simp [hz, hval] at h
              | none =>
                simp [hz, hval] at h ⊢
                subst h
                exact assocFind_insert _ _ _

/-- A data-cache hit returns a cursor over the cached rows at once: no
generator invocation, no filesystem change (src/main.go lines 171-177). -/
lemma open_cache_hit (env : DataEnv) (fs : FS) (vt : InfiniTable)
    (rs : List Row)
    (hhit : assocFind (cacheFileName vt.tableName) fs = some (.rows rs)) :
    vt.Open env fs = ⟨.ok ⟨vt.tableName, rs, 0, vt.columns⟩, fs, 0⟩ := by
  simp [InfiniTable.Open, hhit]

/-- On a data-cache miss (file absent or malformed) with credentials,
prompt, and a parsed generator response, `Open` reduces to the data
validation and best-effort persist steps. -/
lemma open_gen_ok (env : DataEnv) (fs : FS) (vt : InfiniTable)
    (rows : List Row)
    (hmiss : ∀ rs, assocFind (cacheFileName vt.tableName) fs ≠ some (.rows rs))
    (hkey : ¬ env.apiKey = "") (hprompt : env.promptOk = true)
    (hgen : env.gen = .ok rows) :
    vt.Open env fs =
      (if rows.length = 0 then ⟨.error .emptyData, fs, 1⟩
       else
         ⟨.ok ⟨vt.tableName, rows, 0, vt.columns⟩,
           if env.writeOk then
             assocInsert (cacheFileName vt.tableName) (.rows rows) fs
           else fs, 1⟩) := by
  cases hfind : assocFind (cacheFileName vt.tableName) fs with
  | none => simp [InfiniTable.Open, hfind, hkey, hprompt, hgen]
  | some fd =>
    cases fd with
    | malformed => simp [InfiniTable.Open, hfind, hkey, hprompt, hgen]
    | rows rs => exact absurd hfind (hmiss rs)

/-- Every failing `Open` leaves the data cache untouched and invokes the
generator at most once. -/
lemma open_err_fs (env : DataEnv) (fs : FS) (vt : InfiniTable) (d : DataError)
    (h : (vt.Open env fs).res = .error d) :
    (vt.Open env fs).fs = fs := by
  cases hfind : assocFind (cacheFileName vt.tableName) fs with
  | none =>
    by_cases hkey : env.apiKey = ""
    · simp [InfiniTable.Open, hfind, hkey]
    · cases hprompt : env.promptOk with
      | false => simp [InfiniTable.Open, hfind, hkey, hprompt]
      | true =>
        cases hgen : env.gen with
        | genFail => simp [InfiniTable.Open, hfind, hkey, hprompt, hgen]
        | parseFail => simp [InfiniTable.Open, hfind, hkey, hprompt, hgen]
        | ok rows =>
          rw [open_gen_ok env fs vt rows (by simp [hfind]) hkey hprompt hgen]
            at h ⊢
          by_cases hz : rows.length = 0
          · simp [hz]
          · simp [hz] at h
  | some fd =>
    cases fd with
    | malformed =>
      by_cases hkey : env.apiKey = ""
      · simp [InfiniTable.Open, hfind, hkey]
      · cases hprompt : env.promptOk with
        | false => simp [InfiniTable.Open, hfind, hkey, hprompt]
        | true =>
          cases hgen : env.gen with
          | genFail => simp [InfiniTable.Open, hfind, hkey, hprompt, hgen]
          | parseFail => simp [InfiniTable.Open, hfind, hkey, hprompt, hgen]
          | ok rows =>
            rw [open_gen_ok env fs vt rows (by simp [hfind]) hkey hprompt hgen]
              at h ⊢
            by_cases hz : rows.length = 0
            · simp [hz]
            · simp [hz] at h
    | rows rs =>
      rw [open_cache_hit env fs vt rs hfind] at h
      simp at h

/-- A successful `Open` serves a non-empty row list: either it was read
whole from the cache file, or it is the full generator response. -/
lemma open_ok_fs (env : DataEnv) (fs : FS) (vt : InfiniTable)
    (cur : InfiniCursor) (h : (vt.Open env fs).res = .ok cur) :
    cur.data ≠ [] ∨ assocFind (cacheFileName vt.tableName) fs
        = some (.rows cur.data) := by
  cases hfind : assocFind (cacheFileName vt.tableName) fs with
  | none =>
    by_cases hkey : env.apiKey = ""
    · simp [InfiniTable.Open, hfind, hkey] at h
    · cases hprompt : env.promptOk with
      | false => simp [InfiniTable.Open, hfind, hkey, hprompt] at h
      | true =>
        cases hgen : env.gen with
        | genFail => simp [InfiniTable.Open, hfind, hkey, hprompt, hgen] at h
        | parseFail => simp [InfiniTable.Open, hfind, hkey, hprompt, hgen] at h
        | ok rows =>
          rw [open_gen_ok env fs vt rows (by simp [hfind]) hkey hprompt hgen]
            at h
          by_cases hz : rows.length = 0
          · simp [hz] at h
          · simp [hz] at h
            left
            rw [← h]
            simpa using hz
  | some fd =>
    cases fd with
    | malformed =>
      by_cases hkey : env.apiKey = ""
      · simp [InfiniTable.Open, hfind, hkey] at h
      · cases hprompt : env.promptOk with
        | false => simp [InfiniTable.Open, hfind, hkey, hprompt] at h
        | true =>
          cases hgen : env.gen with
          | genFail => simp [InfiniTable.Open, hfind, hkey, hprompt, hgen] at h
          | parseFail => simp [InfiniTable.Open, hfind, hkey, hprompt, hgen] at h
          | ok rows =>
            rw [open_gen_ok env fs vt rows (by simp [hfind]) hkey hprompt hgen]
              at h
            by_cases hz : rows.length = 0
            · simp [hz] at h
            · simp [hz] at h
              left
              rw [← h]
              simpa using hz
    | rows rs =>
      rw [open_cache_hit env fs vt rs hfind] at h
      simp at h
      right
      rw [← h]

example :
    (InfiniCursor.Column
      ⟨"t", [[("age", .vnum 30)]], 0, [⟨"age", "INTEGER", "", ""⟩]⟩ 0)
      = .ok (.int 30) := by decide

/-- The rational 30.5 = 61/2, given as an explicit normalized fraction. -/
def ratThirtyPointFive : ℚ := ⟨61, 2, by decide, by decide⟩

example :
    (InfiniCursor.Column
      ⟨"t", [[("age", .vnum ratThirtyPointFive)]], 0, [⟨"age", "INTEGER", "", ""⟩]⟩ 0)
      = .ok (.int 30) := by decide

/-- The validation loop passes exactly on non-empty-name, duplicate-free,
validly typed column lists. -/
lemma validateColumns_eq_none_iff (cols : List Column) :
    validateColumns cols = none ↔ NamesOk cols ∧ TypesOk cols := by
  unfold validateColumns NamesOk TypesOk
  rw [validateColumnsAux_eq_none_iff]
  constructor
  · rintro ⟨hall, hnd⟩
    exact ⟨⟨fun c hc => (hall c hc).1, hnd⟩, fun c hc => (hall c hc).2.2⟩
  · rintro ⟨⟨hne, hnd⟩, hty⟩
    exact ⟨fun c hc => ⟨hne c hc, by simp, hty c hc⟩, hnd⟩

/-- C10: `Connect` fails, without touching the schema cache or invoking
the generator, whenever fewer than four module arguments are supplied
(a table declaration must carry a name and a description). -/
theorem connect_requires_four_args (env : GenEnv) (cache : SchemaCache)
    (args : List String) (h : args.length < 4) :
    Connect env cache args = ⟨.error .missingArgs, cache, 0⟩ := by
  simp [Connect, h]

theorem connect_requires_four_args_witness :
    Connect ⟨"k", true, .genFail⟩ [] ["infinidb", "main", "people"]
      = ⟨.error .missingArgs, [], 0⟩ :=
  connect_requires_four_args ⟨"k", true, .genFail⟩ []
    ["infinidb", "main", "people"] (by decide)

/-- C7: on the generation path (no usable cache file), a generator
response that parses to zero rows fails with EmptyData: no cursor is
returned, the data cache is not written, one generator invocation. -/
theorem open_rejects_empty_data (env : DataEnv) (fs : FS) (vt : InfiniTable)
    (hmiss : ∀ rs, assocFind (cacheFileName vt.tableName) fs ≠ some (.rows rs))
    (hkey : ¬ env.apiKey = "") (hprompt : env.promptOk = true)
    (hgen : env.gen = .ok []) :
    vt.Open env fs = ⟨.error .emptyData, fs, 1⟩ := by
  rw [open_gen_ok env fs vt [] hmiss hkey hprompt hgen]
  simp

theorem open_rejects_empty_data_witness :
    InfiniTable.Open ⟨"k", true, .ok [], true⟩ [] ⟨"people", "some people", []⟩
      = ⟨.error .emptyData, [], 1⟩ :=
  open_rejects_empty_data ⟨"k", true, .ok [], true⟩ [] ⟨"people", "some people", []⟩
    (fun rs hcon => by simp [assocFind] at hcon)
    (by decide) (by decide) (by decide)

/-- C6: cursor bounds. `EOF` is true exactly at positions at or past the
row count (so false exactly at 0..N-1 among the non-negative positions),
and `Column` at any out-of-bounds position or column index fails with
CursorOutOfRange. -/
theorem cursor_bounds (cur : InfiniCursor) :
    (∀ p : ℤ, (InfiniCursor.EOF { cur with pos := p }) = true ↔
      (cur.data.length : ℤ) ≤ p) ∧
    (∀ p c2 : ℤ,
      (p < 0 ∨ (cur.data.length : ℤ) ≤ p ∨ c2 < 0 ∨
        (cur.columns.length : ℤ) ≤ c2) →
      InfiniCursor.Column { cur with pos := p } c2 = .error .cursorOutOfRange) := by
  constructor
  · intro p
    simp [InfiniCursor.EOF, ge_iff_le]
  · intro p c2 h
    unfold InfiniCursor.Column
    rw [if_pos]
    rcases h with h | h | h | h
    · left; simpa using h
    · right; left; simpa [ge_iff_le] using h
    · right; right; left; simpa using h
    · right; right; right; simpa [ge_iff_le] using h

theorem cursor_bounds_witness :
    InfiniCursor.Column ⟨"t", [[("a", .vstr "x")]], 1, [⟨"a", "TEXT", "", ""⟩]⟩ 0
      = .error .cursorOutOfRange :=
  (cursor_bounds ⟨"t", [[("a", .vstr "x")]], 0, [⟨"a", "TEXT", "", ""⟩]⟩).2 1 0
    (by decide)

/-- The per-type word in the `type mismatch for ...: expected ...`
messages of src/main.go lines 280, 286, 292, 300. -/
def mismatchWord : String → String
  | "INTEGER" => "integer"
  | "TEXT" => "text"
  | "REAL" => "real"
  | "BLOB" => "blob"
  | _ => ""

/-- C9: at a valid position and column index, a key present with an
explicit JSON null is NOT reported as null: for every declared type in
the enum the read fails with the type-mismatch error, because only an
absent key takes the ResultNull branch. -/
theorem column_explicit_null_is_type_mismatch (cur : InfiniCursor) (col : ℤ)
    (hp0 : 0 ≤ cur.pos) (hpl : cur.pos < (cur.data.length : ℤ))
    (hc0 : 0 ≤ col) (hcl : col < (cur.columns.length : ℤ))
    (hnull : assocFind (cur.curCol col).name cur.curRow = some .vnull)
    (hty : (cur.curCol col).type ∈ validTypes) :
    cur.Column col = .error
      (.typeMismatch (cur.curCol col).name
        (mismatchWord (cur.curCol col).type)) := by
  have hcond : ¬(cur.pos < 0 ∨ cur.pos ≥ (cur.data.length : ℤ) ∨ col < 0 ∨
      col ≥ (cur.columns.length : ℤ)) := by omega
  unfold InfiniCursor.Column
  rw [if_neg hcond]
  simp only [hnull]
  simp only [validTypes, List.mem_cons, List.not_mem_nil, or_false] at hty
  rcases hty with h | h | h | h <;> rw [h] <;> simp [mismatchWord, h]

theorem column_explicit_null_is_type_mismatch_witness :
    InfiniCursor.Column
        ⟨"people", [[("age", .vnull)]], 0, [⟨"age", "INTEGER", "", ""⟩]⟩ 0
      = .error (.typeMismatch "age" "integer") :=
  column_explicit_null_is_type_mismatch
    ⟨"people", [[("age", .vnull)]], 0, [⟨"age", "INTEGER", "", ""⟩]⟩ 0
    (by decide) (by decide) (by decide) (by decide) (by decide) (by decide)

/-- A successful `Open` with a succeeding cache-file write leaves the
served rows readable under the table's cache-file identity. -/
lemma open_ok_write_find (env : DataEnv) (fs : FS) (vt : InfiniTable)
    (cur : InfiniCursor) (hw : env.writeOk = true)
    (h : (vt.Open env fs).res = .ok cur) :
    assocFind (cacheFileName vt.tableName) (vt.Open env fs).fs
      = some (.rows cur.data) := by
  cases hfind : assocFind (cacheFileName vt.tableName) fs with
  | none =>
    by_cases hkey : env.apiKey = ""
    · simp [InfiniTable.Open, hfind, hkey] at h
    · cases hprompt : env.promptOk with
      | false => simp [InfiniTable.Open, hfind, hkey, hprompt] at h
      | true =>
        cases hgen : env.gen with
        | genFail => simp [InfiniTable.Open, hfind, hkey, hprompt, hgen] at h
        | parseFail => simp [InfiniTable.Open, hfind, hkey, hprompt, hgen] at h
        | ok rows =>
          rw [open_gen_ok env fs vt rows (by simp [hfind]) hkey hprompt hgen]
            at h ⊢
          by_cases hz : rows.length = 0
          · simp [hz] at h
          · simp [hz, hw] at h ⊢
            rw [← h]
            exact assocFind_insert _ _ _
  | some fd =>
    cases fd with
    | malformed =>
      by_cases hkey : env.apiKey = ""
      · simp [InfiniTable.Open, hfind, hkey] at h
      · cases hprompt : env.promptOk with
        | false => simp [InfiniTable.Open, hfind, hkey, hprompt] at h
        | true =>
          cases hgen : env.gen with
          | genFail => simp [InfiniTable.Open, hfind, hkey, hprompt, hgen] at h
          | parseFail => simp [InfiniTable.Open, hfind, hkey, hprompt, hgen] at h
          | ok rows =>
            rw [open_gen_ok env fs vt rows (by simp [hfind]) hkey hprompt hgen]
              at h ⊢
            by_cases hz : rows.length = 0
            · simp [hz] at h
            · simp [hz, hw] at h ⊢
              rw [← h]
              exact assocFind_insert _ _ _
    | rows rs =>
      rw [open_cache_hit env fs vt rs hfind] at h ⊢
      simp at h ⊢
      rw [← h]
      exact hfind

/-- C3: a readable, well-formed cache file short-circuits `Open`: the
cursor serves exactly the cached rows, the generator is never invoked and
no credentials are needed (the whole environment, `apiKey` included, is
arbitrary); consequently, after any successful open whose best-effort
cache write succeeded, every later open is such a cache hit returning the
same rows with zero generator invocations under any environment. -/
theorem open_cache_hit_bypasses_generator (env : DataEnv) (fs : FS)
    (vt : InfiniTable) (rs : List Row)
    (hhit : assocFind (cacheFileName vt.tableName) fs = some (.rows rs)) :
    vt.Open env fs = ⟨.ok ⟨vt.tableName, rs, 0, vt.columns⟩, fs, 0⟩ ∧
    (∀ (env2 env3 : DataEnv) (fs0 : FS) (rows : List Row),
      env2.writeOk = true →
      (vt.Open env2 fs0).res = .ok ⟨vt.tableName, rows, 0, vt.columns⟩ →
      vt.Open env3 (vt.Open env2 fs0).fs
        = ⟨.ok ⟨vt.tableName, rows, 0, vt.columns⟩, (vt.Open env2 fs0).fs, 0⟩) := by
  refine ⟨open_cache_hit env fs vt rs hhit, ?_⟩
  intro env2 env3 fs0 rows hw hok
  exact open_cache_hit env3 _ vt rows
    (open_ok_write_find env2 fs0 vt ⟨vt.tableName, rows, 0, vt.columns⟩ hw hok)

theorem open_cache_hit_bypasses_generator_witness :
    InfiniTable.Open ⟨"", true, .genFail, false⟩
        [(".cache/people_data.json", .rows [[("age", .vnum 30)]])]
        ⟨"people", "some people", [⟨"age", "INTEGER", "", ""⟩]⟩
      = ⟨.ok ⟨"people", [[("age", .vnum 30)]], 0, [⟨"age", "INTEGER", "", ""⟩]⟩,
          [(".cache/people_data.json", .rows [[("age", .vnum 30)]])], 0⟩ :=
  (open_cache_hit_bypasses_generator ⟨"", true, .genFail, false⟩
    [(".cache/people_data.json", .rows [[("age", .vnum 30)]])]
    ⟨"people", "some people", [⟨"age", "INTEGER", "", ""⟩]⟩
    [[("age", .vnum 30)]] (by decide)).1

/-- C4: failure atomicity. A failing `Connect` leaves the schema cache
unchanged and a failing `Open` leaves the data cache unchanged; moreover a
successful `Connect` only ever stores the full validated column list, and
a successful `Open` only ever serves a non-empty row list (read whole from
the cache or taken whole from the generator response), so no partial
schema or row set is cached or served. -/
theorem caches_unchanged_on_failure (cenv : GenEnv) (cache : SchemaCache)
    (args : List String) (e : SchemaError) (denv : DataEnv) (fs : FS)
    (vt : InfiniTable) (d : DataError)
    (hc : (Connect cenv cache args).res = .error e)
    (hd : (vt.Open denv fs).res = .error d) :
    (Connect cenv cache args).cache = cache ∧
    (vt.Open denv fs).fs = fs ∧
    (∀ (env2 : GenEnv) (cache2 : SchemaCache) (args2 : List String)
        (cols : List Column),
      (Connect env2 cache2 args2).res = .ok cols →
      (Connect env2 cache2 args2).cache = cache2 ∨
        ((Connect env2 cache2 args2).cache
            = assocInsert (argAt args2 2) cols cache2 ∧
          validateColumns cols = none ∧ cols ≠ [])) ∧
    (∀ (env3 : DataEnv) (fs3 : FS) (vt3 : InfiniTable) (cur : InfiniCursor),
      (vt3.Open env3 fs3).res = .ok cur →
      cur.data ≠ [] ∨ assocFind (cacheFileName vt3.tableName) fs3
          = some (.rows cur.data)) :=
  ⟨connect_err_cache cenv cache args e hc,
   open_err_fs denv fs vt d hd,
   fun env2 cache2 args2 cols h => connect_ok_cache env2 cache2 args2 cols h,
   fun env3 fs3 vt3 cur h => open_ok_fs env3 fs3 vt3 cur h⟩

theorem caches_unchanged_on_failure_witness :
    (Connect ⟨"", true, .genFail⟩ [] ["infinidb", "main", "t", "d"]).cache = [] ∧
    (InfiniTable.Open ⟨"", true, .genFail, true⟩ [] ⟨"t", "d", []⟩).fs = [] :=
  ⟨(caches_unchanged_on_failure ⟨"", true, .genFail⟩ [] ["infinidb", "main", "t", "d"]
      .missingCredentials ⟨"", true, .genFail, true⟩ [] ⟨"t", "d", []⟩
      .missingCredentials (by decide) (by decide)).1,
   (caches_unchanged_on_failure ⟨"", true, .genFail⟩ [] ["infinidb", "main", "t", "d"]
      .missingCredentials ⟨"", true, .genFail, true⟩ [] ⟨"t", "d", []⟩
      .missingCredentials (by decide) (by decide)).2.1⟩

/-- C1 counterexample: with a failing generator (and credentials present),
two `Connect` calls for the same table name in the same process each
invoke the generator — two invocations, not at most one. -/
theorem connect_two_failed_calls_invoke_generator_twice :
    ¬ ((Connect ⟨"k", true, .genFail⟩ [] ["infinidb", "main", "t", "d"]).gen
        + (Connect ⟨"k", true, .genFail⟩
            (Connect ⟨"k", true, .genFail⟩ [] ["infinidb", "main", "t", "d"]).cache
            ["infinidb", "main", "t", "d"]).gen ≤ 1) := by decide

/-- C1 (amended): a cache hit returns the cached columns with no generator
call, and after any SUCCESSFUL `Connect`, the generator was invoked at
most once, the returned columns sit in the cache under the table name,
and a second `Connect` for the same arguments (any environment) returns
the identical columns with zero generator invocations and no cache
change. Two calls whose first fails may invoke the generator twice. -/
theorem connect_idempotent_after_success (env env2 : GenEnv)
    (cache : SchemaCache) (args : List String) (cols : List Column)
    (hlen : ¬ args.length < 4)
    (hres : (Connect env cache args).res = .ok cols) :
    (Connect env cache args).gen ≤ 1 ∧
    assocFind (argAt args 2) (Connect env cache args).cache = some cols ∧
    Connect env2 (Connect env cache args).cache args
      = ⟨.ok cols, (Connect env cache args).cache, 0⟩ :=
  ⟨connect_gen_le_one env cache args,
   connect_ok_find env cache args cols hres,
   connect_cache_hit env2 _ args cols hlen
     (connect_ok_find env cache args cols hres)⟩

theorem connect_idempotent_after_success_witness :
    Connect ⟨"", false, .genFail⟩
        (Connect ⟨"k", true, .ok [⟨"id", "INTEGER", "", ""⟩]⟩ []
          ["infinidb", "main", "t", "d"]).cache
        ["infinidb", "main", "t", "d"]
      = ⟨.ok [⟨"id", "INTEGER", "", ""⟩],
          (Connect ⟨"k", true, .ok [⟨"id", "INTEGER", "", ""⟩]⟩ []
            ["infinidb", "main", "t", "d"]).cache, 0⟩ :=
  (connect_idempotent_after_success ⟨"k", true, .ok [⟨"id", "INTEGER", "", ""⟩]⟩
    ⟨"", false, .genFail⟩ [] ["infinidb", "main", "t", "d"]
    [⟨"id", "INTEGER", "", ""⟩] (by decide) (by decide)).2.2

/-- C2 counterexample: a generator response whose first column has an
invalid type AND whose second column repeats the first one's name is
rejected with InvalidType, not with DuplicateColumn — the loop checks
column by column, name before type, so the claim's unconditional
"any repeated name fails with DuplicateColumn" does not hold. -/
theorem connect_mixed_defect_reports_invalid_type :
    ([⟨"a", "VARCHAR", "", ""⟩, ⟨"a", "TEXT", "", ""⟩].map Column.name
        = ["a", "a"]) ∧
    (Connect ⟨"k", true, .ok [⟨"a", "VARCHAR", "", ""⟩, ⟨"a", "TEXT", "", ""⟩]⟩
        [] ["infinidb", "main", "t", "d"]).res
      = .error (.invalidType "VARCHAR" "a") ∧
    (SchemaError.invalidType "VARCHAR" "a" ≠ .duplicateColumn "a") := by decide

/-- C2 (amended): on the generation path, a zero-column response fails
with EmptySchema (and EmptySchema arises only then); Connect succeeds
exactly on well-formed responses (non-empty, names non-empty and unique,
types in the enum); a DuplicateColumn verdict proves some name is empty
or repeated and an InvalidType verdict proves the named column has that
out-of-enum type; and on single-defect responses the verdict is the
matching one — only when both defect classes are present does the first
offending column (name checked before type) decide the error. -/
theorem connect_validation_characterization (env : GenEnv)
    (cache : SchemaCache) (args : List String) (cols : List Column)
    (hlen : ¬ args.length < 4)
    (hmiss : assocFind (argAt args 2) cache = none)
    (hkey : ¬ env.apiKey = "") (hprompt : env.promptOk = true)
    (hgen : env.gen = .ok cols) :
    ((Connect env cache args).res = .ok cols ↔ SchemaSpecOk cols) ∧
    ((Connect env cache args).res = .error .emptySchema ↔ cols = []) ∧
    (∀ n, (Connect env cache args).res = .error (.duplicateColumn n) →
      (∃ c ∈ cols, c.name = "") ∨ ¬ (cols.map Column.name).Nodup) ∧
    (∀ t n, (Connect env cache args).res = .error (.invalidType t n) →
      ∃ c ∈ cols, c.name = n ∧ c.type = t ∧ t ∉ validTypes) ∧
    (cols ≠ [] → ¬ NamesOk cols → TypesOk cols →
      ∃ n, (Connect env cache args).res = .error (.duplicateColumn n)) ∧
    (cols ≠ [] → NamesOk cols → ¬ TypesOk cols →
      ∃ t n, (Connect env cache args).res = .error (.invalidType t n)) := by
  rw [connect_gen_ok env cache args cols hlen hmiss hkey hprompt hgen]
  by_cases hz : cols.length = 0
  · have hnil : cols = [] := by simpa using hz
    subst hnil
    simp [SchemaSpecOk]
  · have hne : cols ≠ [] := by simpa using hz
    rw [if_neg hz]
    cases hval : validateColumns cols with
    | some e =>
      have hshape := validateColumnsAux_err_shape cols [] e hval
      refine ⟨?_, ?_, ?_, ?_, ?_, ?_⟩
      · simp only [ConnectOut.res]
        constructor
        · intro h; cases h
        · intro hspec
          exfalso
          have : validateColumns cols = none :=
            (validateColumns_eq_none_iff cols).mpr ⟨hspec.2.1, hspec.2.2⟩
          rw [hval] at this; cases this
      · simp only [ConnectOut.res]
        constructor
        · intro h
          injection h with h
          subst h
          rcases hshape with ⟨n, hn⟩ | ⟨t, n, hn⟩ <;> cases hn
        · intro h; exact absurd h hne
      · intro n h
        simp only [ConnectOut.res] at h
        injection h with h
        subst h
        rcases validateColumnsAux_dup_sound cols [] n hval with h | h | h
        · exact Or.inl h
        · exact Or.inr h
        · rcases h with ⟨c, -, hmem⟩
          cases hmem
      · intro t n h
        simp only [ConnectOut.res] at h
        injection h with h
        subst h
        exact validateColumnsAux_ty_sound cols [] t n hval
      · intro hne2 hnames htypes
        rcases hshape with ⟨n, hn⟩ | ⟨t, n, hn⟩
        · subst hn
          exact ⟨n, rfl⟩
        · subst hn
          exfalso
          rcases validateColumnsAux_ty_sound cols [] t n hval with ⟨c, hc, -, hcty, hnotin⟩
          exact hnotin (hcty ▸ htypes c hc)
      · intro hne2 hnames htypes
        rcases hshape with ⟨n, hn⟩ | ⟨t, n, hn⟩
        · subst hn
          exfalso
          rcases validateColumnsAux_dup_sound cols [] n hval with h | h | h
          · rcases h with ⟨c, hc, hcname⟩
            exact hnames.1 c hc hcname
          · exact h hnames.2
          · rcases h with ⟨c, -, hmem⟩
            cases hmem
        · subst hn
          exact ⟨t, n, rfl⟩
    | none =>
      have hok := (validateColumns_eq_none_iff cols).mp hval
      refine ⟨?_, ?_, ?_, ?_, ?_, ?_⟩
      · simp only [ConnectOut.res]
        exact iff_of_true trivial ⟨hne, hok.1, hok.2⟩
      · simp only [ConnectOut.res]
        constructor
        · intro h; cases h
        · intro h; exact absurd h hne
      · intro n h
        simp only [ConnectOut.res] at h
        cases h
      · intro t n h
        simp only [ConnectOut.res] at h
        cases h
      · intro hne2 hnames htypes
        exact absurd hok.1 hnames
      · intro hne2 hnames htypes
        exact absurd hok.2 htypes

theorem connect_validation_characterization_witness :
    (Connect ⟨"k", true, .ok [⟨"id", "INTEGER", "", ""⟩, ⟨"name", "TEXT", "", ""⟩]⟩
        [] ["infinidb", "main", "users", "some users"]).res
      = .ok [⟨"id", "INTEGER", "", ""⟩, ⟨"name", "TEXT", "", ""⟩] :=
  (connect_validation_characterization
    ⟨"k", true, .ok [⟨"id", "INTEGER", "", ""⟩, ⟨"name", "TEXT", "", ""⟩]⟩
    [] ["infinidb", "main", "users", "some users"]
    [⟨"id", "INTEGER", "", ""⟩, ⟨"name", "TEXT", "", ""⟩]
    (by decide) (by simp [assocFind]) (by decide) (by decide) (by decide)).1.mpr
    (by decide)

/-- C5 counterexample: an INTEGER column read on the non-integer-valued
number 30.5 does not fail with TypeMismatch — it succeeds and yields the
truncated integer 30, because the code converts any float64 with
`int64(v)`. -/
theorem column_integer_accepts_noninteger_number :
    ratThirtyPointFive.den = 2 ∧
    InfiniCursor.Column
        ⟨"people", [[("age", .vnum ratThirtyPointFive)]], 0,
          [⟨"age", "INTEGER", "", ""⟩]⟩ 0
      = .ok (.int 30) ∧
    ((.ok (.int 30) : Except CursorError ColResult)
      ≠ .error (.typeMismatch "age" "integer")) := by decide

/-- C5 (amended): at a valid position and column index, an absent key
yields null with no error; a present value is coerced by the declared
type — INTEGER accepts any float64, truncating it toward zero (also an
int64 unchanged), and fails with TypeMismatch only for non-numeric
values; TEXT requires a string; REAL requires a float64; BLOB accepts a
string (as its raw bytes) or a byte sequence. A mismatch produces an
error for that single cell read only: `Column` writes no cursor field
(it is a pure function of the cursor here, as in the code), so the
cursor and row set stay intact. -/
theorem column_read_postcondition (cur : InfiniCursor) (col : ℤ)
    (hp0 : 0 ≤ cur.pos) (hpl : cur.pos < (cur.data.length : ℤ))
    (hc0 : 0 ≤ col) (hcl : col < (cur.columns.length : ℤ)) :
    (assocFind (cur.curCol col).name cur.curRow = none →
      cur.Column col = .ok .null) ∧
    (∀ q, assocFind (cur.curCol col).name cur.curRow = some (.vnum q) →
      (cur.curCol col).type = "INTEGER" →
      cur.Column col = .ok (.int (goTrunc q))) ∧
    (∀ n, assocFind (cur.curCol col).name cur.curRow = some (.vint n) →
      (cur.curCol col).type = "INTEGER" → cur.Column col = .ok (.int n)) ∧
    (∀ v, assocFind (cur.curCol col).name cur.curRow = some v →
      (cur.curCol col).type = "INTEGER" →
      (∀ q, v ≠ .vnum q) → (∀ n, v ≠ .vint n) →
      cur.Column col = .error (.typeMismatch (cur.curCol col).name "integer")) ∧
    (∀ s, assocFind (cur.curCol col).name cur.curRow = some (.vstr s) →
      (cur.curCol col).type = "TEXT" → cur.Column col = .ok (.text s)) ∧
    (∀ v, assocFind (cur.curCol col).name cur.curRow = some v →
      (cur.curCol col).type = "TEXT" → (∀ s, v ≠ .vstr s) →
      cur.Column col = .error (.typeMismatch (cur.curCol col).name "text")) ∧
    (∀ q, assocFind (cur.curCol col).name cur.curRow = some (.vnum q) →
      (cur.curCol col).type = "REAL" → cur.Column col = .ok (.double q)) ∧
    (∀ v, assocFind (cur.curCol col).name cur.curRow = some v →
      (cur.curCol col).type = "REAL" → (∀ q, v ≠ .vnum q) →
      cur.Column col = .error (.typeMismatch (cur.curCol col).name "real")) ∧
    (∀ s, assocFind (cur.curCol col).name cur.curRow = some (.vstr s) →
      (cur.curCol col).type = "BLOB" →
      cur.Column col = .ok (.blob (strBytes s))) ∧
    (∀ b, assocFind (cur.curCol col).name cur.curRow = some (.vbytes b) →
      (cur.curCol col).type = "BLOB" → cur.Column col = .ok (.blob b)) ∧
    (∀ v, assocFind (cur.curCol col).name cur.curRow = some v →
      (cur.curCol col).type = "BLOB" →
      (∀ s, v ≠ .vstr s) → (∀ b, v ≠ .vbytes b) →
      cur.Column col = .error (.typeMismatch (cur.curCol col).name "blob")) := by
  have hcond : ¬(cur.pos < 0 ∨ cur.pos ≥ (cur.data.length : ℤ) ∨ col < 0 ∨
      col ≥ (cur.columns.length : ℤ)) := by omega
  refine ⟨?_, ?_, ?_, ?_, ?_, ?_, ?_, ?_, ?_, ?_, ?_⟩
  · intro hfind
    unfold InfiniCursor.Column
    rw [if_neg hcond]
    simp [hfind]
  · intro q hfind hty
    unfold InfiniCursor.Column
    rw [if_neg hcond]
    simp [hfind, hty]
  · intro n hfind hty
    unfold InfiniCursor.Column
    rw [if_neg hcond]
    simp [hfind, hty]
  · intro v hfind hty hq hn
    unfold InfiniCursor.Column
    rw [if_neg hcond]
    cases v with
    | vnum q => exact absurd rfl (hq q)
    | vint n => exact absurd rfl (hn n)
    | vstr s => simp [hfind, hty]
    | vbytes b => simp [hfind, hty]
    | vbool b => simp [hfind, hty]
    | vnull => simp [hfind, hty]
  · intro s hfind hty
    unfold InfiniCursor.Column
    rw [if_neg hcond]
    simp [hfind, hty]
  · intro v hfind hty hs
    unfold InfiniCursor.Column
    rw [if_neg hcond]
    cases v with
    | vstr s => exact absurd rfl (hs s)
    | vnum q => simp [hfind, hty]
    | vint n => simp [hfind, hty]
    | vbytes b => simp [hfind, hty]
    | vbool b => simp [hfind, hty]
    | vnull => simp [hfind, hty]
  · intro q hfind hty
    unfold InfiniCursor.Column
    rw [if_neg hcond]
    simp [hfind, hty]
  · intro v hfind hty hq
    unfold InfiniCursor.Column
    rw [if_neg hcond]
    cases v with
    | vnum q => exact absurd rfl (hq q)
    | vint n => simp [hfind, hty]
    | vstr s => simp [hfind, hty]
    | vbytes b => simp [hfind, hty]
    | vbool b => simp [hfind, hty]
    | vnull => simp [hfind, hty]
  · intro s hfind hty
    unfold InfiniCursor.Column
    rw [if_neg hcond]
    simp [hfind, hty]
  · intro b hfind hty
    unfold InfiniCursor.Column
    rw [if_neg hcond]
    simp [hfind, hty]
  · intro v hfind hty hs hb
    unfold InfiniCursor.Column
    rw [if_neg hcond]
    cases v with
    | vstr s => exact absurd rfl (hs s)
    | vbytes b => exact absurd rfl (hb b)
    | vnum q => simp [hfind, hty]
    | vint n => simp [hfind, hty]
    | vbool b2 => simp [hfind, hty]
    | vnull => simp [hfind, hty]

theorem column_read_postcondition_witness :
    InfiniCursor.Column
        ⟨"people", [[("age", .vnum 30), ("name", .vstr "bob")]], 0,
          [⟨"age", "INTEGER", "", ""⟩, ⟨"name", "TEXT", "", ""⟩]⟩ 1
      = .ok (.text "bob") :=
  (column_read_postcondition
    ⟨"people", [[("age", .vnum 30), ("name", .vstr "bob")]], 0,
      [⟨"age", "INTEGER", "", ""⟩, ⟨"name", "TEXT", "", ""⟩]⟩ 1
    (by decide) (by decide) (by decide) (by decide)).2.2.2.2.1 "bob"
    (by decide) (by decide)

/-- Fidelity of the interleaving model: a single caller scheduled alone
(three steps, the later ones no-ops once it is done) computes exactly the
result, cache, and generator count of `Connect`. -/
lemma single_thread_matches_connect (env : GenEnv) (cache : SchemaCache)
    (args : List String) (hlen : ¬ args.length < 4) :
    ((runSched env (argAt args 2) ⟨cache, 0, initThread, initThread⟩
        [false, false, false]).t0.res = some (Connect env cache args).res) ∧
    ((runSched env (argAt args 2) ⟨cache, 0, initThread, initThread⟩
        [false, false, false]).cache = (Connect env cache args).cache) ∧
    ((runSched env (argAt args 2) ⟨cache, 0, initThread, initThread⟩
        [false, false, false]).genCount = (Connect env cache args).gen) := by
  cases hfind : assocFind (argAt args 2) cache with
  | some c =>
    rw [connect_cache_hit env cache args c hlen hfind]
    simp [runSched, schedStep, threadStep, initThread, hfind]
  | none =>
    by_cases hkey : env.apiKey = ""
    · simp [Connect, hlen, hfind, hkey, runSched, schedStep, threadStep,
        initThread]
    · cases hprompt : env.promptOk with
      | false =>
        simp [Connect, hlen, hfind, hkey, hprompt, runSched, schedStep,
          threadStep, initThread]
      | true =>
        cases hgen : env.gen with
        | genFail =>
          simp [Connect, hlen, hfind, hkey, hprompt, hgen, runSched,
            schedStep, threadStep, initThread]
        | parseFail =>
          simp [Connect, hlen, hfind, hkey, hprompt, hgen, runSched,
            schedStep, threadStep, initThread]
        | ok cols =>
          rw [connect_gen_ok env cache args cols hlen hfind hkey hprompt hgen]
          by_cases hz : cols.length = 0
          · simp [hz, hfind, hkey, hprompt, hgen, runSched, schedStep,
              threadStep, initThread]
          · cases hval : validateColumns cols with
            | some e =>
              simp [hz, hval, hfind, hkey, hprompt, hgen, runSched,
                schedStep, threadStep, initThread]
            | none =>
              simp [hz, hval, hfind, hkey, hprompt, hgen, runSched,
                schedStep, threadStep, initThread]

/-- C8 counterexample: two overlapping `Connect` callers for the same
uncached name — both read the no-mutex `schemaCache` before either has
stored — each invoke the generator: two invocations, identical successful
results, refuting "exactly one generator invocation". -/
theorem concurrent_connects_invoke_generator_twice :
    (runSched ⟨"k", true, .ok [⟨"id", "INTEGER", "", ""⟩]⟩ "t" raceInit
        [false, true, false, true, false, true]).genCount = 2 ∧
    (runSched ⟨"k", true, .ok [⟨"id", "INTEGER", "", ""⟩]⟩ "t" raceInit
        [false, true, false, true, false, true]).genCount ≠ 1 ∧
    (runSched ⟨"k", true, .ok [⟨"id", "INTEGER", "", ""⟩]⟩ "t" raceInit
        [false, true, false, true, false, true]).t0.res
      = some (.ok [⟨"id", "INTEGER", "", ""⟩]) ∧
    (runSched ⟨"k", true, .ok [⟨"id", "INTEGER", "", ""⟩]⟩ "t" raceInit
        [false, true, false, true, false, true]).t1.res
      = some (.ok [⟨"id", "INTEGER", "", ""⟩]) := by decide

/-- C8 (amended): the code has no coalescing mechanism (`schemaCache` is a
bare map, no lock or singleflight), so overlapping callers can each invoke
the generator; what does hold is that NON-overlapping calls coalesce: when
one caller runs to completion before the second starts and the generator
response validates, the generator is invoked exactly once and both callers
observe the identical successful column list. -/
theorem sequential_connects_coalesce (env : GenEnv) (name : String)
    (cols : List Column) (hkey : ¬ env.apiKey = "")
    (hprompt : env.promptOk = true) (hgen : env.gen = .ok cols)
    (hne : cols ≠ []) (hval : validateColumns cols = none) :
    (runSched env name raceInit [false, false, false, true]).genCount = 1 ∧
    (runSched env name raceInit [false, false, false, true]).t0.res
      = some (.ok cols) ∧
    (runSched env name raceInit [false, false, false, true]).t1.res
      = some (.ok cols) := by
  have hz : ¬ cols.length = 0 := by simpa using hne
  simp [runSched, schedStep, threadStep, raceInit, initThread, assocFind,
    assocInsert, hkey, hprompt, hgen, hz, hval]

theorem sequential_connects_coalesce_witness :
    (runSched ⟨"k", true, .ok [⟨"id", "INTEGER", "", ""⟩]⟩ "t" raceInit
        [false, false, false, true]).genCount = 1 ∧
    (runSched ⟨"k", true, .ok [⟨"id", "INTEGER", "", ""⟩]⟩ "t" raceInit
        [false, false, false, true]).t0.res
      = some (.ok [⟨"id", "INTEGER", "", ""⟩]) ∧
    (runSched ⟨"k", true, .ok [⟨"id", "INTEGER", "", ""⟩]⟩ "t" raceInit
        [false, false, false, true]).t1.res
      = some (.ok [⟨"id", "INTEGER", "", ""⟩]) :=
  sequential_connects_coalesce ⟨"k", true, .ok [⟨"id", "INTEGER", "", ""⟩]⟩
    "t" [⟨"id", "INTEGER", "", ""⟩] (by decide) (by decide) (by decide)
    (by decide) (by decide)
